import Mathlib

/-!
# Smart Hospital API — write-path consistency subsystem

Shallow embedding of the Flask service in `app/` (routes `api_v1.py`,
schemas `schemas.py`, models `models.py`, config `config.py`).

Modelling conventions, each matching the source:

* The SQLAlchemy store is a `Store` value: one list per table
  (`Patient`, `Device`, `Vital`, `IdempotencyKey` rows).  Every handler is a
  pure function `Config → Store → inputs → result × Store`; the returned
  store is the *committed* state after the request.  Flask-SQLAlchemy's
  request-scoped session rolls back uncommitted pending rows at request
  teardown, so a `db.session.add` that is not followed by a
  `db.session.commit()` before the handler returns leaves the store
  unchanged — the embedding reflects exactly the commits the handler runs.
* ISO-8601 instants are modelled as integers (epoch ticks): the claims only
  use their ordering and equality; the parse layer is the excluded
  validation plumbing.
* `uuid4().hex` draws in `uid` are modelled by a per-store fresh counter
  `nextUid`: vital-record ids are the drawn naturals, minted device API
  keys are `"key_" ++ Nat.repr n`.
* `Float` vitals (`temp`) are opaque pass-through values, modelled as
  integers; no arithmetic is ever performed on them.
* Marshmallow schemas are modelled by their declared fields; an extra body
  field (`idempotency_key`) rides along in the raw payload, which is how
  `post_vitals` reads it from `request.json`.
-/

namespace Hospital

/-- `app/models.py` `Patient` row (`dob`, `assigned_doctor_id` nullable). -/
structure Patient where
  id : String
  name : String
  dob : Option String := none
  assigned_doctor_id : Option String := none
  deriving Repr, DecidableEq

/-- `app/models.py` `Device` row. -/
structure Device where
  id : String
  type : String
  patient_id : String
  status : String := "active"
  api_key : String
  deriving Repr, DecidableEq

/-- `app/models.py` `Vital` row; the uuid-based string id is an opaque
unique token, modelled as the natural drawn from the store's counter. -/
structure Vital where
  id : Nat
  patient_id : String
  timestamp : Int
  heart_rate : Option Int := none
  bp_systolic : Option Int := none
  bp_diastolic : Option Int := none
  spo2 : Option Int := none
  temp : Option Int := none
  device_id : String
  deriving Repr, DecidableEq

/-- `app/models.py` `IdempotencyKey` row: `key` is the combined
`device_id:token` string and carries the unique constraint. -/
structure IdemRecord where
  device_id : String
  key : String
  deriving Repr, DecidableEq

/-- The committed database state plus the fresh-uid source. -/
structure Store where
  patients : List Patient := []
  devices : List Device := []
  vitals : List Vital := []
  idem_keys : List IdemRecord := []
  nextUid : Nat := 0
  deriving Repr, DecidableEq

/-- `app/config.py`: the one configuration value the write path reads. -/
structure Config where
  DEVICE_MASTER_KEY : String
  deriving Repr, DecidableEq

/-- JSON error payload built by `error(code, http, message, details)`;
`details` is omitted (`none`) unless supplied. -/
structure ApiErr where
  code : String
  http : Nat
  message : String
  details : Option (List String) := none
  deriving Repr, DecidableEq

/-- `error("missing_api_key", 401, ...)`. -/
def missingKeyErr : ApiErr := ⟨"missing_api_key", 401, "X-API-Key header required", none⟩

/-- `error("invalid_api_key", 401, ...)`. -/
def invalidKeyErr : ApiErr := ⟨"invalid_api_key", 401, "Invalid API key", none⟩

/-- `error("validation_error", 400, ..., details)`. -/
def validationErr (msgs : List String) : ApiErr :=
  ⟨"validation_error", 400, "Invalid payload", some msgs⟩

/-- `error("not_found", 404, ...)`. -/
def notFoundErr : ApiErr := ⟨"not_found", 404, "No readings for patient", none⟩

/-- `require_device_api_key`: missing/empty header fails closed, then the
master key, then any device's issued key; anything else is invalid.
`none` means authorized. -/
def require_device_api_key (cfg : Config) (devices : List Device)
    (supplied : Option String) : Option ApiErr :=
  match supplied with
  | none => some missingKeyErr
  | some s =>
    if s = "" then some missingKeyErr
    else if s = cfg.DEVICE_MASTER_KEY then none
    else if devices.any (fun d => d.api_key = s) then none
    else some invalidKeyErr

/-- `record_idempotency(device_id, idem_key)`: a falsy key is treated as
new with no write; otherwise look up the combined key and insert-and-commit
when unseen.  Returns (isNew, committed store). -/
def record_idempotency (s : Store) (device_id : String)
    (idem_key : Option String) : Bool × Store :=
  match idem_key with
  | none => (true, s)
  | some k =>
    if k = "" then (true, s)
    else
      let combined := device_id ++ ":" ++ k
      if s.idem_keys.any (fun r => r.key = combined) then (false, s)
      else (true, { s with idem_keys := ⟨device_id, combined⟩ :: s.idem_keys })

/-! ## Schemas (`app/schemas.py`) -/

/-- The `validate.OneOf` list of `DeviceRegisterSchema.type`. -/
def deviceTypes : List String := ["hr", "bp", "spo2", "temp", "multi"]

/-- Raw JSON `bp` object before validation: either field may be absent. -/
structure RawBP where
  systolic : Option Int := none
  diastolic : Option Int := none
  deriving Repr, DecidableEq

/-- Raw JSON body of a vitals POST before validation.  `idempotency_key`
is not a schema field; `post_vitals` reads it from the raw body. -/
structure VitalPayload where
  timestamp : Option Int := none
  heart_rate : Option Int := none
  bp : Option RawBP := none
  spo2 : Option Int := none
  temp : Option Int := none
  device_id : Option String := none
  idempotency_key : Option String := none
  deriving Repr, DecidableEq

/-- `BPField`: `systolic` required in 0–300, `diastolic` required in 0–200;
the field-level error messages collected by the schema. -/
def bpFieldErrs (b : RawBP) : List String :=
  (match b.systolic with
   | none => ["bp.systolic: required"]
   | some v => if 0 ≤ v ∧ v ≤ 300 then [] else ["bp.systolic: out of range"])
  ++
  (match b.diastolic with
   | none => ["bp.diastolic: required"]
   | some v => if 0 ≤ v ∧ v ≤ 200 then [] else ["bp.diastolic: out of range"])

/-- All field errors of `VitalInSchema` on a raw payload. -/
def vitalPayloadErrs (p : VitalPayload) : List String :=
  (if p.timestamp.isNone then ["timestamp: required"] else [])
  ++ (match p.bp with | none => [] | some b => bpFieldErrs b)
  ++ (if p.device_id.isNone then ["device_id: required"] else [])

/-- The dictionary `VitalInSchema().load` returns on success. -/
structure VitalData where
  timestamp : Int
  heart_rate : Option Int
  bp : Option RawBP
  spo2 : Option Int
  temp : Option Int
  device_id : String
  deriving Repr, DecidableEq

/-- `VitalInSchema().load`: succeeds iff no field errors; a present `bp`
must satisfy `BPField`. -/
def VitalInSchema_load (p : VitalPayload) : Except (List String) VitalData :=
  match p.timestamp, p.device_id with
  | some t, some d =>
    match p.bp with
    | none => .ok ⟨t, p.heart_rate, none, p.spo2, p.temp, d⟩
    | some b =>
      if bpFieldErrs b = [] then .ok ⟨t, p.heart_rate, some b, p.spo2, p.temp, d⟩
      else .error (bpFieldErrs b)
  | _, _ => .error (vitalPayloadErrs p)

/-- Raw JSON body of a register POST. -/
structure RegisterPayload where
  device_id : Option String := none
  type : Option String := none
  patient_id : Option String := none
  deriving Repr, DecidableEq

/-- The dictionary `DeviceRegisterSchema().load` returns on success. -/
structure RegisterData where
  device_id : String
  type : String
  patient_id : String
  deriving Repr, DecidableEq

/-- `DeviceRegisterSchema().load`: all three fields required, `type`
constrained to `deviceTypes`. -/
def DeviceRegisterSchema_load (p : RegisterPayload) :
    Except (List String) RegisterData :=
  match p.device_id, p.type, p.patient_id with
  | some d, some t, some pid =>
    if deviceTypes.contains t then .ok ⟨d, t, pid⟩
    else .error ["type: must be one of hr, bp, spo2, temp, multi"]
  | _, _, _ => .error ["required field missing"]

/-! ## Write endpoints (`app/routes/api_v1.py`) -/

/-- Result of `POST /api/v1/devices/register`. -/
inductive RegisterResult where
  | registered (device_id : String) (api_key : String)
  | already_registered (device_id : String) (api_key : String)
  | failure (e : ApiErr)
  deriving Repr, DecidableEq

/-- HTTP status of a register response. -/
def RegisterResult.http : RegisterResult → Nat
  | .registered _ _ => 201
  | .already_registered _ _ => 200
  | .failure e => e.http

/-- `register_device`: auth gate, schema load, patient find-or-create
(committed only if the new-device branch later commits), existing-device
short-circuit, else mint a key and persist the device. -/
def register_device (cfg : Config) (s : Store) (apiKey : Option String)
    (body : RegisterPayload) : RegisterResult × Store :=
  match require_device_api_key cfg s.devices apiKey with
  | some e => (.failure e, s)
  | none =>
    match DeviceRegisterSchema_load body with
    | .error msgs => (.failure (validationErr msgs), s)
    | .ok data =>
      -- pending auto-created patient (db.session.add without commit yet)
      let pending : List Patient :=
        if s.patients.any (fun p => p.id = data.patient_id) then []
        else [⟨data.patient_id, "Patient " ++ data.patient_id, none, none⟩]
      match s.devices.find? (fun d => d.id = data.device_id) with
      | some existing =>
        -- returns without db.session.commit(): the pending insert is
        -- rolled back at request teardown, so the store is unchanged
        (.already_registered existing.id existing.api_key, s)
      | none =>
        let api_key := "key_" ++ Nat.repr s.nextUid
        let device : Device := ⟨data.device_id, data.type, data.patient_id, "active", api_key⟩
        (.registered device.id api_key,
         { s with patients := s.patients ++ pending,
                  devices := device :: s.devices,
                  nextUid := s.nextUid + 1 })

/-- Result of `POST /api/v1/patients/<patient_id>/vitals`. -/
inductive IngestResult where
  | stored (vital_id : Nat)
  | duplicate_ignored
  | failure (e : ApiErr)
  deriving Repr, DecidableEq

/-- HTTP status of an ingest response. -/
def IngestResult.http : IngestResult → Nat
  | .stored _ => 201
  | .duplicate_ignored => 200
  | .failure e => e.http

/-- Python `a or b` on the two idempotency-token sources: a `None` or empty
header falls through to the body field. -/
def pyOr (a b : Option String) : Option String :=
  match a with
  | none => b
  | some x => if x = "" then b else some x

/-- The `Vital` row `post_vitals` constructs from the validated payload,
with the freshly drawn id `n`. -/
def mkVital (n : Nat) (patient_id : String) (data : VitalData) : Vital :=
  { id := n,
    patient_id := patient_id,
    timestamp := data.timestamp,
    heart_rate := data.heart_rate,
    bp_systolic := data.bp.bind (fun b => b.systolic),
    bp_diastolic := data.bp.bind (fun b => b.diastolic),
    spo2 := data.spo2,
    temp := data.temp,
    device_id := data.device_id }

/-- `post_vitals`: auth gate, schema load, token resolution
(header `or` body field), ledger check, then construct and commit the
`Vital` row. -/
def post_vitals (cfg : Config) (s : Store) (patient_id : String)
    (apiKey idemHeader : Option String) (body : VitalPayload) :
    IngestResult × Store :=
  match require_device_api_key cfg s.devices apiKey with
  | some e => (.failure e, s)
  | none =>
    match VitalInSchema_load body with
    | .error msgs => (.failure (validationErr msgs), s)
    | .ok data =>
      let idem := pyOr idemHeader body.idempotency_key
      match record_idempotency s data.device_id idem with
      | (false, s1) => (.duplicate_ignored, s1)
      | (true, s1) =>
        let v : Vital := mkVital s1.nextUid patient_id data
        (.stored v.id, { s1 with vitals := v :: s1.vitals, nextUid := s1.nextUid + 1 })

/-! ## Read endpoints (`app/routes/api_v1.py`)

Reads run no `db.session` mutation at all, so they are pure functions of
the store: "no state change" holds by construction. -/

/-- The `bp` sub-object of a serialized vital: present only when both
columns are non-null. -/
def vitalBP (v : Vital) : Option (Int × Int) :=
  match v.bp_systolic, v.bp_diastolic with
  | some sys, some dia => some (sys, dia)
  | _, _ => none

/-- The JSON dict both `get_latest` and `get_history` build per vital. -/
structure VitalView where
  timestamp : Int
  heart_rate : Option Int
  bp : Option (Int × Int)
  spo2 : Option Int
  temp : Option Int
  device_id : String
  deriving Repr, DecidableEq

/-- Serialize one vital row. -/
def vitalView (v : Vital) : VitalView :=
  ⟨v.timestamp, v.heart_rate, vitalBP v, v.spo2, v.temp, v.device_id⟩

/-- `Vital.query.filter_by(patient_id=...)`. -/
def patientVitals (s : Store) (pid : String) : List Vital :=
  s.vitals.filter (fun v => v.patient_id = pid)

/-- `order_by(Vital.timestamp.desc())` comparison. -/
def byTsDesc (a b : Vital) : Bool := b.timestamp ≤ a.timestamp

/-- `get_latest`: newest-by-timestamp vital of the patient, or `not_found`. -/
def get_latest (s : Store) (patient_id : String) : Except ApiErr VitalView :=
  match ((patientVitals s patient_id).mergeSort byTsDesc).head? with
  | none => .error notFoundErr
  | some v => .ok (vitalView v)

/-- `timestamp >= dt_from` / `timestamp <= dt_to` filters (inclusive). -/
def inRange (dtFrom dtTo : Option Int) (v : Vital) : Bool :=
  (match dtFrom with | none => true | some f => f ≤ v.timestamp)
  && (match dtTo with | none => true | some t => v.timestamp ≤ t)

/-- The vitals of the patient matching the optional time range — the query
`get_history` counts and paginates. -/
def historyMatches (s : Store) (pid : String) (dtFrom dtTo : Option Int) :
    List Vital :=
  (patientVitals s pid).filter (inRange dtFrom dtTo)

/-- Response body of `get_history`. -/
structure HistoryResp where
  results : List VitalView
  page : Int
  page_size : Int
  total : Nat
  deriving Repr, DecidableEq

/-- `get_history`: optional inclusive instant filters, `page` floored at 1
(default 1), `page_size` clamped to 1–500 (default 100), total counted
before pagination, newest-first offset/limit window. -/
def get_history (s : Store) (patient_id : String) (dtFrom dtTo : Option Int)
    (pageParam sizeParam : Option Int) : HistoryResp :=
  let page : Int := max (pageParam.getD 1) 1
  let size : Int := min (max (sizeParam.getD 100) 1) 500
  let q := historyMatches s patient_id dtFrom dtTo
  let total := q.length
  let items := ((q.mergeSort byTsDesc).drop ((page - 1) * size).toNat).take size.toNat
  ⟨items.map vitalView, page, size, total⟩

end Hospital

namespace Hospital

/-! ## Helper lemmas -/

/-- The two auth error payloads have the auth error codes. -/
lemma missingKeyErr_code : missingKeyErr.code = "missing_api_key" := rfl

/-- `bpFieldErrs` is empty exactly when both fields are present and in
range. -/
lemma bpFieldErrs_eq_nil_iff (b : RawBP) :
    bpFieldErrs b = [] ↔
      ∃ sys dia, b.systolic = some sys ∧ b.diastolic = some dia ∧
        0 ≤ sys ∧ sys ≤ 300 ∧ 0 ≤ dia ∧ dia ≤ 200 := by
  obtain ⟨os, od⟩ := b
  cases os <;> cases od <;> simp [bpFieldErrs, and_assoc]

/-- `VitalInSchema_load` ignores the non-schema `idempotency_key` field. -/
lemma VitalInSchema_load_set_idem (body : VitalPayload) (b2 : Option String) :
    VitalInSchema_load { body with idempotency_key := b2 }
      = VitalInSchema_load body := by
  cases body
  rfl

/-! ## Claims -/

/--
**C2** (authorization gate): for every write request — register or ingest —
an absent or empty `X-API-Key` yields the `missing_api_key` rejection (401)
with the store unchanged; a supplied key equal to neither the master secret
nor any device's issued key yields `invalid_api_key` (401) with the store
unchanged; a key equal to the master secret, or to some device's issued
key, is authorized.
-/
theorem C2_authorization_gate :
    ∀ (cfg : Config) (s : Store) (k : String),
      (∀ pid idemH body, post_vitals cfg s pid none idemH body = (.failure missingKeyErr, s)
        ∧ post_vitals cfg s pid (some "") idemH body = (.failure missingKeyErr, s)
        ∧ missingKeyErr.http = 401) ∧
      (∀ body, register_device cfg s none body = (.failure missingKeyErr, s)
        ∧ register_device cfg s (some "") body = (.failure missingKeyErr, s)) ∧
      (k ≠ "" → k ≠ cfg.DEVICE_MASTER_KEY → (∀ d ∈ s.devices, d.api_key ≠ k) →
        (∀ pid idemH body,
          post_vitals cfg s pid (some k) idemH body = (.failure invalidKeyErr, s))
        ∧ (∀ body, register_device cfg s (some k) body = (.failure invalidKeyErr, s))
        ∧ invalidKeyErr.http = 401) ∧
      (k ≠ "" → (k = cfg.DEVICE_MASTER_KEY ∨ ∃ d ∈ s.devices, d.api_key = k) →
        require_device_api_key cfg s.devices (some k) = none) := by
  intro cfg s k
  refine ⟨?_, ?_, ?_, ?_⟩
  · intro pid idemH body
    exact ⟨rfl, rfl, rfl⟩
  · intro body
    exact ⟨rfl, rfl⟩
  · intro hk hm hd
    have hany : s.devices.any (fun d => d.api_key = k) = false := by
      simp only [List.any_eq_false, decide_eq_true_eq]
      intro d hdmem
      exact hd d hdmem
    have hreq : require_device_api_key cfg s.devices (some k) = some invalidKeyErr := by
      simp [require_device_api_key, hk, hm, hany]
    refine ⟨?_, ?_, rfl⟩
    · intro pid idemH body
      simp [post_vitals, hreq]
    · intro body
      simp [register_device, hreq]
  · intro hk hauth
    rcases hauth with hm | ⟨d, hdmem, hdk⟩
    · subst hm
      simp [require_device_api_key, hk]
    · have hany : s.devices.any (fun d => d.api_key = k) = true := by
        simp only [List.any_eq_true, decide_eq_true_eq]
        exact ⟨d, hdmem, hdk⟩
      simp [require_device_api_key, hk, hany]

/-! Concrete fixtures shared by the witnesses. -/

/-- A configuration with master secret `"master"`. -/
def cfg0 : Config := ⟨"master"⟩

/-- A registered device holding issued key `"key_a"`. -/
def dev0 : Device := ⟨"dev1", "hr", "p1", "active", "key_a"⟩

/-- A store holding exactly `dev0`. -/
def store0 : Store := { devices := [dev0] }

/-- Witness for C2 at concrete inputs: no key and a wrong key are rejected
with the store untouched; the master secret and the issued device key are
authorized. -/
theorem C2_authorization_gate_witness :
    post_vitals cfg0 store0 "p1" none none {} = (.failure missingKeyErr, store0)
    ∧ post_vitals cfg0 store0 "p1" (some "wrong") none {} = (.failure invalidKeyErr, store0)
    ∧ require_device_api_key cfg0 store0.devices (some "master") = none
    ∧ require_device_api_key cfg0 store0.devices (some "key_a") = none :=
  ⟨((C2_authorization_gate cfg0 store0 "wrong").1 "p1" none {}).1,
   ((C2_authorization_gate cfg0 store0 "wrong").2.2.1 (by decide) (by decide)
      (by decide)).1 "p1" none {},
   (C2_authorization_gate cfg0 store0 "master").2.2.2 (by decide) (Or.inl (by decide)),
   (C2_authorization_gate cfg0 store0 "key_a").2.2.2 (by decide)
      (Or.inr ⟨dev0, by decide, by decide⟩)⟩

/-- A nonempty header token resolves to itself. -/
lemma pyOr_some_of_ne (x : Option String) {th : String} (h : th ≠ "") :
    pyOr (some th) x = some th := by
  simp [pyOr, h]

/--
**C4** (idempotency-token precedence): when a nonempty `Idempotency-Key`
header is supplied, the header value is the resolved deduplication token —
the whole ingest outcome is unchanged by whatever `idempotency_key` field
the body carries — and with no header (absent or empty) the body field is
the resolved token.
-/
theorem C4_idem_token_precedence :
    ∀ (cfg : Config) (s : Store) (pid : String) (apiKey : Option String)
      (body : VitalPayload) (th : String) (b2 : Option String),
      th ≠ "" →
      pyOr (some th) body.idempotency_key = some th ∧
      post_vitals cfg s pid apiKey (some th) body
        = post_vitals cfg s pid apiKey (some th) { body with idempotency_key := b2 } ∧
      pyOr none body.idempotency_key = body.idempotency_key ∧
      pyOr (some "") body.idempotency_key = body.idempotency_key := by
  intro cfg s pid apiKey body th b2 hth
  refine ⟨pyOr_some_of_ne _ hth, ?_, rfl, by simp [pyOr]⟩
  unfold post_vitals
  simp only [VitalInSchema_load_set_idem, pyOr_some_of_ne _ hth]

/-- Witness for C4 at concrete inputs. -/
theorem C4_idem_token_precedence_witness :
    pyOr (some "tok") (some "body-tok") = some "tok" ∧
    post_vitals cfg0 store0 "p1" (some "master") (some "tok")
        { timestamp := some 5, device_id := some "dev1", idempotency_key := some "body-tok" }
      = post_vitals cfg0 store0 "p1" (some "master") (some "tok")
        { timestamp := some 5, device_id := some "dev1", idempotency_key := none } ∧
    pyOr none (some "body-tok") = some "body-tok" ∧
    pyOr (some "") (some "body-tok") = some "body-tok" := by
  have h := C4_idem_token_precedence cfg0 store0 "p1" (some "master")
    { timestamp := some 5, device_id := some "dev1", idempotency_key := some "body-tok" }
    "tok" none (by decide)
  exact ⟨h.1, h.2.1, h.2.2.1, h.2.2.2⟩

/--
**C7** (blood-pressure pairing): with the required `timestamp` and
`device_id` present, the payload passes schema validation exactly when
`bp` is absent or carries both `systolic` (0–300) and `diastolic` (0–200);
any validation failure makes the ingest endpoint return the
`validation_error` response with the store unchanged.
-/
theorem C7_bp_pairing :
    ∀ (p : VitalPayload) (t : Int) (d : String),
      p.timestamp = some t → p.device_id = some d →
      ((∃ data, VitalInSchema_load p = .ok data) ↔
        (p.bp = none ∨ ∃ b sys dia, p.bp = some b ∧ b.systolic = some sys ∧
          b.diastolic = some dia ∧ 0 ≤ sys ∧ sys ≤ 300 ∧ 0 ≤ dia ∧ dia ≤ 200)) ∧
      (∀ msgs, VitalInSchema_load p = .error msgs →
        ∀ (cfg : Config) (s : Store) (pid : String) (apiKey idemH : Option String),
          require_device_api_key cfg s.devices apiKey = none →
          post_vitals cfg s pid apiKey idemH p = (.failure (validationErr msgs), s)) := by
  intro p t d ht hd
  constructor
  · obtain ⟨ots, ohr, obp, osp, otp, odv, oik⟩ := p
    obtain rfl : ots = some t := ht
    obtain rfl : odv = some d := hd
    cases obp with
    | none => simp [VitalInSchema_load]
    | some b =>
      simp only [VitalInSchema_load]
      by_cases hb : bpFieldErrs b = []
      · rw [if_pos hb]
        obtain ⟨sys, dia, h1, h2, h3, h4, h5, h6⟩ := (bpFieldErrs_eq_nil_iff b).mp hb
        constructor
        · intro _
          exact Or.inr ⟨b, sys, dia, rfl, h1, h2, h3, h4, h5, h6⟩
        · intro _
          exact ⟨_, rfl⟩
      · rw [if_neg hb]
        constructor
        · rintro ⟨data, hcontra⟩
          exact absurd hcontra (by simp)
        · rintro (hnone | ⟨b', sys, dia, hbe, h1, h2, h3, h4, h5, h6⟩)
          · exact absurd hnone (by simp)
          · obtain rfl : b = b' := by injection hbe
            exact absurd ((bpFieldErrs_eq_nil_iff b).mpr ⟨sys, dia, h1, h2, h3, h4, h5, h6⟩) hb
  · intro msgs hload cfg s pid apiKey idemH hreq
    simp [post_vitals, hreq, hload]

/-- A payload whose `bp` carries both fields in range. -/
def bpOkPayload : VitalPayload :=
  { timestamp := some 0, device_id := some "dev1", bp := some ⟨some 120, some 80⟩ }

/-- A payload whose `bp` carries only `systolic`. -/
def bpOnlySysPayload : VitalPayload :=
  { timestamp := some 0, device_id := some "dev1", bp := some ⟨some 120, none⟩ }

/-- A payload with `systolic = 301`. -/
def bpHighSysPayload : VitalPayload :=
  { timestamp := some 0, device_id := some "dev1", bp := some ⟨some 301, some 80⟩ }

/-- Witness for C7: both-in-range passes; only-systolic and `systolic=301`
fail, and the failing ingest leaves the store unchanged. -/
theorem C7_bp_pairing_witness :
    (∃ data, VitalInSchema_load bpOkPayload = .ok data)
    ∧ VitalInSchema_load bpOnlySysPayload = .error ["bp.diastolic: required"]
    ∧ VitalInSchema_load bpHighSysPayload = .error ["bp.systolic: out of range"]
    ∧ post_vitals cfg0 store0 "p1" (some "master") none bpHighSysPayload
        = (.failure (validationErr ["bp.systolic: out of range"]), store0) :=
  ⟨((C7_bp_pairing bpOkPayload 0 "dev1" rfl rfl).1).mpr
      (Or.inr ⟨⟨some 120, some 80⟩, 120, 80, rfl, rfl, rfl,
        by decide, by decide, by decide, by decide⟩),
   rfl, rfl,
   (C7_bp_pairing bpHighSysPayload 0 "dev1" rfl rfl).2
     ["bp.systolic: out of range"] rfl cfg0 store0 "p1" (some "master") none rfl⟩
/-- The ingest run on an authorized, schema-valid request with a resolved
nonempty token that is not yet in the ledger: the vital and the ledger
record are both committed. -/
lemma post_vitals_fresh_token {cfg : Config} {s : Store} {p : String}
    {apiKey idemH : Option String} {body : VitalPayload} {data : VitalData}
    {tok : String}
    (hreq : require_device_api_key cfg s.devices apiKey = none)
    (hload : VitalInSchema_load body = .ok data)
    (hidem : pyOr idemH body.idempotency_key = some tok)
    (htok : tok ≠ "")
    (hfresh : s.idem_keys.any
      (fun r => r.key = data.device_id ++ ":" ++ tok) = false) :
    post_vitals cfg s p apiKey idemH body =
      (.stored s.nextUid,
       { s with idem_keys := ⟨data.device_id, data.device_id ++ ":" ++ tok⟩ :: s.idem_keys,
                vitals := mkVital s.nextUid p data :: s.vitals,
                nextUid := s.nextUid + 1 }) := by
  simp [post_vitals, hreq, hload, record_idempotency, mkVital, hidem, htok, hfresh]

/-- The ingest run on an authorized, schema-valid request whose resolved
nonempty token is already in the ledger: `duplicate_ignored`, store
untouched. -/
lemma post_vitals_dup {cfg : Config} {s : Store} {p : String}
    {apiKey idemH : Option String} {body : VitalPayload} {data : VitalData}
    {tok : String}
    (hreq : require_device_api_key cfg s.devices apiKey = none)
    (hload : VitalInSchema_load body = .ok data)
    (hidem : pyOr idemH body.idempotency_key = some tok)
    (htok : tok ≠ "")
    (hseen : s.idem_keys.any
      (fun r => r.key = data.device_id ++ ":" ++ tok) = true) :
    post_vitals cfg s p apiKey idemH body = (.duplicate_ignored, s) := by
  simp [post_vitals, hreq, hload, record_idempotency, mkVital, hidem, htok, hseen]

/-- The ingest run on an authorized, schema-valid request whose resolved
token is absent or empty: stored, and the ledger is not written. -/
lemma post_vitals_no_token {cfg : Config} {s : Store} {p : String}
    {apiKey idemH : Option String} {body : VitalPayload} {data : VitalData}
    (hreq : require_device_api_key cfg s.devices apiKey = none)
    (hload : VitalInSchema_load body = .ok data)
    (hidem : pyOr idemH body.idempotency_key = none
      ∨ pyOr idemH body.idempotency_key = some "") :
    post_vitals cfg s p apiKey idemH body =
      (.stored s.nextUid,
       { s with vitals := mkVital s.nextUid p data :: s.vitals,
                nextUid := s.nextUid + 1 }) := by
  rcases hidem with h | h <;>
    simp [post_vitals, hreq, hload, record_idempotency, mkVital, h]

/--
**C5** (no-token means no dedup): `record_idempotency` reports new and
writes nothing when the token is absent or empty, so two authorized,
schema-valid ingest calls with identical payloads and no resolved token
each commit their own `Vital` row — two records with distinct ids, and no
ledger record at all.
-/
theorem C5_no_token_no_dedup :
    ∀ (cfg : Config) (s : Store) (pid : String) (apiKey idemH : Option String)
      (body : VitalPayload) (data : VitalData),
      require_device_api_key cfg s.devices apiKey = none →
      VitalInSchema_load body = .ok data →
      (pyOr idemH body.idempotency_key = none
        ∨ pyOr idemH body.idempotency_key = some "") →
      (∀ (s' : Store) (dev : String),
        record_idempotency s' dev none = (true, s')
        ∧ record_idempotency s' dev (some "") = (true, s')) ∧
      (post_vitals cfg s pid apiKey idemH body).1 = .stored s.nextUid ∧
      (post_vitals cfg
          (post_vitals cfg s pid apiKey idemH body).2 pid apiKey idemH body).1
        = .stored (s.nextUid + 1) ∧
      (post_vitals cfg
          (post_vitals cfg s pid apiKey idemH body).2 pid apiKey idemH body).2.vitals
        = mkVital (s.nextUid + 1) pid data :: mkVital s.nextUid pid data :: s.vitals ∧
      (mkVital (s.nextUid + 1) pid data).id ≠ (mkVital s.nextUid pid data).id ∧
      (post_vitals cfg
          (post_vitals cfg s pid apiKey idemH body).2 pid apiKey idemH body).2.idem_keys
        = s.idem_keys := by
  intro cfg s pid apiKey idemH body data hreq hload hidem
  have h1 := post_vitals_no_token (p := pid) hreq hload hidem
  rw [h1]
  have h2 := post_vitals_no_token (p := pid)
    (s := { s with vitals := mkVital s.nextUid pid data :: s.vitals,
                   nextUid := s.nextUid + 1 }) hreq hload hidem
  rw [h2]
  refine ⟨?_, rfl, rfl, rfl, ?_, rfl⟩
  · intro s' dev
    exact ⟨rfl, rfl⟩
  · simp [mkVital]

/-- The store produced by the first witness ingest call of C5. -/
def storeAfterNoTok : Store :=
  (post_vitals cfg0 store0 "p1" (some "master") none
    { timestamp := some 5, device_id := some "dev1" }).2

/-- Witness for C5 at concrete inputs: two no-token calls with the same
payload both store, and the ledger stays empty. -/
theorem C5_no_token_no_dedup_witness :
    (post_vitals cfg0 store0 "p1" (some "master") none
      { timestamp := some 5, device_id := some "dev1" }).1 = .stored 0
    ∧ (post_vitals cfg0 storeAfterNoTok "p1" (some "master") none
      { timestamp := some 5, device_id := some "dev1" }).1 = .stored 1
    ∧ (post_vitals cfg0 storeAfterNoTok "p1" (some "master") none
      { timestamp := some 5, device_id := some "dev1" }).2.vitals.length = 2
    ∧ (post_vitals cfg0 storeAfterNoTok "p1" (some "master") none
      { timestamp := some 5, device_id := some "dev1" }).2.idem_keys = [] := by
  have h := C5_no_token_no_dedup cfg0 store0 "p1" (some "master") none
    { timestamp := some 5, device_id := some "dev1" }
    ⟨5, none, none, none, none, "dev1"⟩ rfl rfl (Or.inl rfl)
  exact ⟨h.2.1, h.2.2.1, by rw [show storeAfterNoTok
    = (post_vitals cfg0 store0 "p1" (some "master") none
        { timestamp := some 5, device_id := some "dev1" }).2 from rfl, h.2.2.2.1]; rfl,
    by rw [show storeAfterNoTok
    = (post_vitals cfg0 store0 "p1" (some "master") none
        { timestamp := some 5, device_id := some "dev1" }).2 from rfl, h.2.2.2.2.2]; rfl⟩
/--
**C3** (idempotent registration): for an authorized, schema-valid
registration of a fresh device id, the first call mints the key drawn from
the fresh-uid source, returns status `registered` (201) and persists the
device row holding that key; a second authorized, valid register call with
the same device id returns the *same* key with status `already_registered`
(200), changes nothing in the store, and in particular never errors and
never overwrites the stored credential.
-/
theorem C3_idempotent_registration :
    ∀ (cfg : Config) (s : Store) (apiKey : Option String)
      (body : RegisterPayload) (data : RegisterData),
      require_device_api_key cfg s.devices apiKey = none →
      DeviceRegisterSchema_load body = .ok data →
      s.devices.find? (fun d => d.id = data.device_id) = none →
      (register_device cfg s apiKey body).1
          = .registered data.device_id ("key_" ++ Nat.repr s.nextUid) ∧
      (register_device cfg s apiKey body).1.http = 201 ∧
      (⟨data.device_id, data.type, data.patient_id, "active",
          "key_" ++ Nat.repr s.nextUid⟩ : Device)
        ∈ (register_device cfg s apiKey body).2.devices ∧
      (∀ (apiKey2 : Option String) (body2 : RegisterPayload) (data2 : RegisterData),
        require_device_api_key cfg (register_device cfg s apiKey body).2.devices apiKey2 = none →
        DeviceRegisterSchema_load body2 = .ok data2 →
        data2.device_id = data.device_id →
        register_device cfg (register_device cfg s apiKey body).2 apiKey2 body2
          = (.already_registered data.device_id ("key_" ++ Nat.repr s.nextUid),
             (register_device cfg s apiKey body).2)
        ∧ (RegisterResult.already_registered data.device_id
            ("key_" ++ Nat.repr s.nextUid)).http = 200) := by
  intro cfg s apiKey body data hreq hload hfind
  have h1 : register_device cfg s apiKey body
      = (.registered data.device_id ("key_" ++ Nat.repr s.nextUid),
         { s with
            patients := s.patients ++
              (if s.patients.any (fun p => p.id = data.patient_id) then []
               else [⟨data.patient_id, "Patient " ++ data.patient_id, none, none⟩]),
            devices := (⟨data.device_id, data.type, data.patient_id, "active",
              "key_" ++ Nat.repr s.nextUid⟩ : Device) :: s.devices,
            nextUid := s.nextUid + 1 }) := by
    simp only [register_device, hreq, hload, hfind]
  rw [h1]
  refine ⟨rfl, rfl, List.mem_cons_self _ _, ?_⟩
  intro apiKey2 body2 data2 hreq2 hload2 hdev2
  refine ⟨?_, rfl⟩
  simp only [register_device, hreq2, hload2]
  rw [List.find?_cons_of_pos _ (by simp [hdev2])]

/-- A schema-valid register body for `dev1`/`p1`. -/
def regBody0 : RegisterPayload := ⟨some "dev1", some "hr", some "p1"⟩

/-- A schema-valid register body for the fresh device `dev2`. -/
def regBody2 : RegisterPayload := ⟨some "dev2", some "bp", some "p2"⟩

/-- Witness for C3 at concrete inputs: registering `dev2` in `store0`
returns `registered` with key `key_0`, and re-registering returns
`already_registered` with the same key and the same store. -/
theorem C3_idempotent_registration_witness :
    (register_device cfg0 store0 (some "master") regBody2).1
      = .registered "dev2" "key_0"
    ∧ register_device cfg0 (register_device cfg0 store0 (some "master") regBody2).2
        (some "master") regBody2
      = (.already_registered "dev2" "key_0",
         (register_device cfg0 store0 (some "master") regBody2).2) := by
  have h := C3_idempotent_registration cfg0 store0 (some "master") regBody2
    ⟨"dev2", "bp", "p2"⟩ rfl rfl (by decide)
  exact ⟨h.1, (h.2.2.2 (some "master") regBody2 ⟨"dev2", "bp", "p2"⟩ rfl rfl rfl).1⟩

/--
**C6 counterexample**: registering an *already-existing* device whose
`patient_id` has no Patient row succeeds with `already_registered`, but the
auto-created Patient is not persisted: the handler returns before any
`db.session.commit()`, so the store after the call has no Patient at all —
contradicting the claim that the patient persists in both outcomes.
-/
theorem C6_counterexample :
    register_device cfg0 store0 (some "master") regBody0
      = (.already_registered "dev1" "key_a", store0)
    ∧ store0.patients.any (fun p => p.id = "p1") = false
    ∧ ((register_device cfg0 store0 (some "master") regBody0).2.patients.any
        (fun p => p.id = "p1")) = false := by
  exact ⟨rfl, rfl, rfl⟩

/--
**C6 amended** (patient auto-provisioning on registration): an authorized,
schema-valid register call whose `patient_id` has no Patient never fails
for that reason; in the *new-device* outcome the placeholder Patient
(`"Patient <id>"`) is committed and persists; in the
*already-existing-device* outcome the call still succeeds
(`already_registered`) but the pending auto-created Patient is discarded —
the store, including the patient table, is returned unchanged.
-/
theorem C6_patient_autoprovision :
    ∀ (cfg : Config) (s : Store) (apiKey : Option String)
      (body : RegisterPayload) (data : RegisterData),
      require_device_api_key cfg s.devices apiKey = none →
      DeviceRegisterSchema_load body = .ok data →
      s.patients.any (fun p => p.id = data.patient_id) = false →
      (∀ e, (register_device cfg s apiKey body).1 ≠ .failure e) ∧
      (s.devices.find? (fun d => d.id = data.device_id) = none →
        (⟨data.patient_id, "Patient " ++ data.patient_id, none, none⟩ : Patient)
          ∈ (register_device cfg s apiKey body).2.patients) ∧
      (∀ d, s.devices.find? (fun d' => d'.id = data.device_id) = some d →
        register_device cfg s apiKey body = (.already_registered d.id d.api_key, s)) := by
  intro cfg s apiKey body data hreq hload hpat
  refine ⟨?_, ?_, ?_⟩
  · intro e
    cases hfind : s.devices.find? (fun d => d.id = data.device_id) with
    | none => simp [register_device, hreq, hload, hfind]
    | some d => simp [register_device, hreq, hload, hfind]
  · intro hfind
    simp only [register_device, hreq, hload, hfind, hpat]
    simp
  · intro d hfind
    simp [register_device, hreq, hload, hfind]

/-- Witness for the amended C6: registering fresh `dev2` (patient `p2`
unknown) persists `Patient p2`; re-registering existing `dev1` (patient
`p1` unknown) succeeds without persisting any patient. -/
theorem C6_patient_autoprovision_witness :
    (⟨"p2", "Patient p2", none, none⟩ : Patient)
      ∈ (register_device cfg0 store0 (some "master") regBody2).2.patients
    ∧ register_device cfg0 store0 (some "master") regBody0
      = (.already_registered "dev1" "key_a", store0) := by
  have h2 := C6_patient_autoprovision cfg0 store0 (some "master") regBody2
    ⟨"dev2", "bp", "p2"⟩ rfl rfl rfl
  have h0 := C6_patient_autoprovision cfg0 store0 (some "master") regBody0
    ⟨"dev1", "hr", "p1"⟩ rfl rfl rfl
  exact ⟨h2.2.1 (by decide), h0.2.2 dev0 (by decide)⟩
/-- The ledger only grows across `record_idempotency`. -/
lemma record_idempotency_mono {s : Store} {r : IdemRecord} (dev : String)
    (idem : Option String) (hr : r ∈ s.idem_keys) :
    r ∈ (record_idempotency s dev idem).2.idem_keys := by
  cases idem with
  | none => exact hr
  | some k =>
    unfold record_idempotency
    dsimp only
    split_ifs <;> simp [hr]

/-- The ledger only grows across `post_vitals`. -/
lemma post_vitals_idem_mono {cfg : Config} {s : Store} {r : IdemRecord}
    (pid : String) (apiKey idemH : Option String) (body : VitalPayload)
    (hr : r ∈ s.idem_keys) :
    r ∈ (post_vitals cfg s pid apiKey idemH body).2.idem_keys := by
  unfold post_vitals
  split
  · exact hr
  · split
    · exact hr
    · rename_i data hload
      dsimp only
      split
      · rename_i s1 hrec
        have h := record_idempotency_mono (s := s) data.device_id
          (pyOr idemH body.idempotency_key) hr
        rw [hrec] at h
        exact h
      · rename_i s1 hrec
        have h := record_idempotency_mono (s := s) data.device_id
          (pyOr idemH body.idempotency_key) hr
        rw [hrec] at h
        simpa using h

/-- The ledger only grows across `register_device` (it never writes it). -/
lemma register_device_idem_mono {cfg : Config} {s : Store} {r : IdemRecord}
    (apiKey : Option String) (body : RegisterPayload)
    (hr : r ∈ s.idem_keys) :
    r ∈ (register_device cfg s apiKey body).2.idem_keys := by
  unfold register_device
  split
  · exact hr
  · split
    · exact hr
    · dsimp only
      split
      · exact hr
      · simpa using hr

/--
**C1** (idempotent ingestion): an authorized, schema-valid ingest with a
fixed nonempty `(deviceId, token)` pair not yet in the ledger records the
composite key, appends exactly one `Vital` (raising the patient's count by
one) and returns `stored` (201); every subsequent authorized, valid ingest
carrying the same pair — on any state whose ledger holds the composite key,
which the first call's state and all its successors do, since both write
endpoints only grow the ledger — returns `duplicate_ignored` as a 200
success with the store unchanged.
-/
theorem C1_idempotent_ingestion :
    ∀ (cfg : Config) (s : Store) (pid : String) (apiKey idemH : Option String)
      (body : VitalPayload) (data : VitalData) (tok : String),
      require_device_api_key cfg s.devices apiKey = none →
      VitalInSchema_load body = .ok data →
      pyOr idemH body.idempotency_key = some tok →
      tok ≠ "" →
      data.device_id ≠ "" →
      (∀ r ∈ s.idem_keys, r.key ≠ data.device_id ++ ":" ++ tok) →
      ((post_vitals cfg s pid apiKey idemH body).1 = .stored s.nextUid
       ∧ (post_vitals cfg s pid apiKey idemH body).1.http = 201
       ∧ (⟨data.device_id, data.device_id ++ ":" ++ tok⟩ : IdemRecord)
           ∈ (post_vitals cfg s pid apiKey idemH body).2.idem_keys
       ∧ (post_vitals cfg s pid apiKey idemH body).2.vitals
           = mkVital s.nextUid pid data :: s.vitals
       ∧ (patientVitals (post_vitals cfg s pid apiKey idemH body).2 pid).length
           = (patientVitals s pid).length + 1) ∧
      (∀ (s2 : Store) (apiKey2 idemH2 : Option String) (body2 : VitalPayload)
         (data2 : VitalData) (pid2 : String),
        require_device_api_key cfg s2.devices apiKey2 = none →
        VitalInSchema_load body2 = .ok data2 →
        data2.device_id = data.device_id →
        pyOr idemH2 body2.idempotency_key = some tok →
        (∃ r ∈ s2.idem_keys, r.key = data.device_id ++ ":" ++ tok) →
        post_vitals cfg s2 pid2 apiKey2 idemH2 body2 = (.duplicate_ignored, s2)
        ∧ IngestResult.duplicate_ignored.http = 200) ∧
      (∀ (s3 : Store) (pid3 : String) (k3 i3 : Option String)
         (b3 : VitalPayload) (r : IdemRecord),
        r ∈ s3.idem_keys → r ∈ (post_vitals cfg s3 pid3 k3 i3 b3).2.idem_keys) ∧
      (∀ (s3 : Store) (k3 : Option String) (b3 : RegisterPayload) (r : IdemRecord),
        r ∈ s3.idem_keys → r ∈ (register_device cfg s3 k3 b3).2.idem_keys) := by
  intro cfg s pid apiKey idemH body data tok hreq hload hidem htok hdev hfresh
  have hfresh' : s.idem_keys.any
      (fun r => r.key = data.device_id ++ ":" ++ tok) = false := by
    simp only [List.any_eq_false, decide_eq_true_eq]
    exact hfresh
  have h1 := post_vitals_fresh_token (p := pid) hreq hload hidem htok hfresh'
  refine ⟨?_, ?_, ?_, ?_⟩
  · rw [h1]
    refine ⟨rfl, rfl, List.mem_cons_self _ _, rfl, ?_⟩
    simp [patientVitals, mkVital]
  · intro s2 apiKey2 idemH2 body2 data2 pid2 hreq2 hload2 hdev2 hidem2 hseen
    have hseen' : s2.idem_keys.any
        (fun r => r.key = data2.device_id ++ ":" ++ tok) = true := by
      simp only [List.any_eq_true, decide_eq_true_eq]
      rw [hdev2]
      exact hseen
    exact ⟨post_vitals_dup hreq2 hload2 hidem2 htok hseen', rfl⟩
  · intro s3 pid3 k3 i3 b3 r hr
    exact post_vitals_idem_mono pid3 k3 i3 b3 hr
  · intro s3 k3 b3 r hr
    exact register_device_idem_mono k3 b3 hr

/-- The vitals body used by the C1 witness. -/
def vbody1 : VitalPayload := { timestamp := some 5, device_id := some "dev1" }

/-- Witness for C1 at concrete inputs: first tokened call stores, the
replay returns `duplicate_ignored` with the store unchanged. -/
theorem C1_idempotent_ingestion_witness :
    (post_vitals cfg0 store0 "p1" (some "master") (some "abc") vbody1).1 = .stored 0
    ∧ post_vitals cfg0
        (post_vitals cfg0 store0 "p1" (some "master") (some "abc") vbody1).2
        "p1" (some "master") (some "abc") vbody1
      = (.duplicate_ignored,
         (post_vitals cfg0 store0 "p1" (some "master") (some "abc") vbody1).2) := by
  have h := C1_idempotent_ingestion cfg0 store0 "p1" (some "master") (some "abc")
    vbody1 ⟨5, none, none, none, none, "dev1"⟩ "abc" rfl rfl rfl
    (by decide) (by decide) (by decide)
  exact ⟨h.1.1,
    (h.2.1 (post_vitals cfg0 store0 "p1" (some "master") (some "abc") vbody1).2
      (some "master") (some "abc") vbody1 ⟨5, none, none, none, none, "dev1"⟩ "p1"
      rfl rfl rfl rfl ⟨⟨"dev1", "dev1:abc"⟩, h.1.2.2.1, rfl⟩).1⟩
/-- `byTsDesc` is transitive. -/
lemma byTsDesc_trans : ∀ (a b c : Vital),
    byTsDesc a b → byTsDesc b c → byTsDesc a c := by
  intro a b c hab hbc
  simp only [byTsDesc, decide_eq_true_eq] at *
  exact le_trans hbc hab

/-- `byTsDesc` is total. -/
lemma byTsDesc_total : ∀ (a b : Vital), byTsDesc a b || byTsDesc b a := by
  intro a b
  simp only [byTsDesc, Bool.or_eq_true, decide_eq_true_eq]
  exact le_total b.timestamp a.timestamp

/--
**C9** (latest reading): for a patient with no vitals, `get_latest` returns
the `not_found` error (404) — and, reads being pure projections of the
store, changes no state; for a patient with at least one vital it returns
the serialization of a stored vital of that patient whose timestamp is
maximal among the patient's vitals.
-/
theorem C9_latest_reading :
    ∀ (s : Store) (pid : String),
      (patientVitals s pid = [] →
        get_latest s pid = .error notFoundErr ∧ notFoundErr.http = 404) ∧
      (patientVitals s pid ≠ [] →
        ∃ v ∈ patientVitals s pid, get_latest s pid = .ok (vitalView v) ∧
          ∀ w ∈ patientVitals s pid, w.timestamp ≤ v.timestamp) := by
  intro s pid
  constructor
  · intro h
    constructor
    · simp [get_latest, h]
    · rfl
  · intro h
    cases hM : (patientVitals s pid).mergeSort byTsDesc with
    | nil =>
      exfalso
      have : ((patientVitals s pid).mergeSort byTsDesc).length
          = (patientVitals s pid).length := List.length_mergeSort _
      rw [hM] at this
      exact h (List.eq_nil_of_length_eq_zero this.symm)
    | cons v rest =>
      have hvmem : v ∈ (patientVitals s pid).mergeSort byTsDesc := by
        rw [hM]; exact List.mem_cons_self _ _
      refine ⟨v, List.mem_mergeSort.mp hvmem, ?_, ?_⟩
      · simp [get_latest, hM]
      · intro w hw
        have hwM : w ∈ (patientVitals s pid).mergeSort byTsDesc :=
          List.mem_mergeSort.mpr hw
        rw [hM] at hwM
        rcases List.mem_cons.mp hwM with rfl | hwrest
        · exact le_refl _
        · have hsorted := List.sorted_mergeSort
            byTsDesc_trans byTsDesc_total (patientVitals s pid)
          rw [hM] at hsorted
          have := (List.pairwise_cons.mp hsorted).1 w hwrest
          simpa [byTsDesc] using this

/-- A store with two vitals for patient `p1` (timestamps 5 and 9). -/
def storeL : Store :=
  { vitals := [⟨0, "p1", 5, none, none, none, none, none, "dev1"⟩,
               ⟨1, "p1", 9, none, none, none, none, none, "dev1"⟩] }

/-- Witness for C9: empty patient gives `not_found`; with vitals present
the returned reading is a maximal-timestamp vital. -/
theorem C9_latest_reading_witness :
    (get_latest store0 "p1" = .error notFoundErr)
    ∧ ∃ v ∈ patientVitals storeL "p1", get_latest storeL "p1" = .ok (vitalView v) ∧
        ∀ w ∈ patientVitals storeL "p1", w.timestamp ≤ v.timestamp :=
  ⟨((C9_latest_reading store0 "p1").1 rfl).1,
   (C9_latest_reading storeL "p1").2 (by decide)⟩

/-- Whether an ingest response is an authorization rejection. -/
def isAuthFailure : IngestResult → Bool
  | .failure e => e.code = "missing_api_key" || e.code = "invalid_api_key"
  | _ => false

/-- An authorized ingest never produces an authorization rejection,
whatever else happens. -/
lemma isAuthFailure_of_authorized {cfg : Config} {s : Store} {pid : String}
    {key idemH : Option String} {body : VitalPayload}
    (hreq : require_device_api_key cfg s.devices key = none) :
    isAuthFailure (post_vitals cfg s pid key idemH body).1 = false := by
  unfold post_vitals
  simp only [hreq]
  split
  · rfl
  · split
    · rfl
    · rfl

/--
**C10** (authorization is not bound to the target): the authorization
outcome of an ingest depends only on the supplied key and the device
table — two requests with the same key agree on being auth-rejected
whatever their path patient id, header or payload; a key issued to any
device authorizes; and an authorized ingest naming a patient id with no
Patient row and a payload device id with no Device row still stores a
Vital carrying exactly those ids.
-/
theorem C10_auth_not_target_bound :
    ∀ (cfg : Config) (s : Store) (key : Option String)
      (pid1 pid2 : String) (hd1 hd2 : Option String) (b1 b2 : VitalPayload),
      (isAuthFailure (post_vitals cfg s pid1 key hd1 b1).1
        = isAuthFailure (post_vitals cfg s pid2 key hd2 b2).1) ∧
      (∀ d ∈ s.devices, d.api_key ≠ "" →
        require_device_api_key cfg s.devices (some d.api_key) = none) ∧
      (∀ (data : VitalData) (tok : String),
        require_device_api_key cfg s.devices key = none →
        VitalInSchema_load b1 = .ok data →
        pyOr hd1 b1.idempotency_key = some tok → tok ≠ "" →
        (∀ r ∈ s.idem_keys, r.key ≠ data.device_id ++ ":" ++ tok) →
        (∀ p ∈ s.patients, p.id ≠ pid1) →
        (∀ d ∈ s.devices, d.id ≠ data.device_id) →
        (post_vitals cfg s pid1 key hd1 b1).1 = .stored s.nextUid ∧
        (post_vitals cfg s pid1 key hd1 b1).2.vitals
          = mkVital s.nextUid pid1 data :: s.vitals ∧
        (mkVital s.nextUid pid1 data).patient_id = pid1 ∧
        (mkVital s.nextUid pid1 data).device_id = data.device_id) := by
  intro cfg s key pid1 pid2 hd1 hd2 b1 b2
  refine ⟨?_, ?_, ?_⟩
  · cases hq : require_device_api_key cfg s.devices key with
    | some e => simp [post_vitals, hq]
    | none => rw [isAuthFailure_of_authorized hq, isAuthFailure_of_authorized hq]
  · intro d hdmem hdk
    have hany : s.devices.any (fun d' => d'.api_key = d.api_key) = true := by
      simp only [List.any_eq_true, decide_eq_true_eq]
      exact ⟨d, hdmem, rfl⟩
    simp [require_device_api_key, hdk, hany]
  · intro data tok hreq hload hidem htok hfresh hnopat hnodev
    have hfresh' : s.idem_keys.any
        (fun r => r.key = data.device_id ++ ":" ++ tok) = false := by
      simp only [List.any_eq_false, decide_eq_true_eq]
      exact hfresh
    have h1 := post_vitals_fresh_token (p := pid1) hreq hload hidem htok hfresh'
    rw [h1]
    exact ⟨rfl, rfl, rfl, rfl⟩

/-- Witness for C10: with device key `key_a`, two ingests naming different
patients agree on authorization, and an ingest for an unknown patient with
an unknown payload device id still stores. -/
theorem C10_auth_not_target_bound_witness :
    isAuthFailure (post_vitals cfg0 store0 "pA" (some "key_a") none vbody1).1
      = isAuthFailure (post_vitals cfg0 store0 "pB" (some "key_a") (some "t") vbody1).1
    ∧ require_device_api_key cfg0 store0.devices (some "key_a") = none
    ∧ (post_vitals cfg0 store0 "ghost" (some "key_a") (some "t")
        { timestamp := some 5, device_id := some "devX" }).1 = .stored 0 := by
  have h := C10_auth_not_target_bound cfg0 store0 (some "key_a") "ghost" "pB"
    (some "t") (some "t") { timestamp := some 5, device_id := some "devX" } vbody1
  have h2 := C10_auth_not_target_bound cfg0 store0 (some "key_a") "pA" "pB"
    none (some "t") vbody1 vbody1
  exact ⟨h2.1, h.2.1 dev0 (by decide) (by decide),
    (h.2.2 ⟨5, none, none, none, none, "devX"⟩ "t" rfl rfl rfl
      (by decide) (by decide) (by decide) (by decide)).1⟩
/-- The timestamp-descending sort is `Pairwise (≥)` on timestamps. -/
lemma mergeSort_ts_sorted (l : List Vital) :
    (l.mergeSort byTsDesc).Pairwise (fun a b => b.timestamp ≤ a.timestamp) := by
  have h := List.sorted_mergeSort byTsDesc_trans byTsDesc_total l
  exact h.imp (fun hab => by simpa [byTsDesc] using hab)

/-- With pairwise-distinct timestamps the sort is strictly descending. -/
lemma mergeSort_ts_strict (l : List Vital)
    (h : (l.map (fun v => v.timestamp)).Nodup) :
    (l.mergeSort byTsDesc).Pairwise (fun a b => b.timestamp < a.timestamp) := by
  have hle := mergeSort_ts_sorted l
  have hperm : List.Perm ((l.mergeSort byTsDesc).map (fun v => v.timestamp))
      (l.map (fun v => v.timestamp)) :=
    (List.mergeSort_perm l byTsDesc).map _
  have hnd : ((l.mergeSort byTsDesc).map (fun v => v.timestamp)).Nodup :=
    hperm.nodup_iff.mpr h
  have hne : (l.mergeSort byTsDesc).Pairwise
      (fun a b => a.timestamp ≠ b.timestamp) := List.pairwise_map.mp hnd
  exact (hle.and hne).imp
    (fun hab => lt_of_le_of_ne hab.1 (fun heq => hab.2 heq.symm))

/-- An offset/limit window of a list is a sublist. -/
lemma window_sublist (l : List Vital) (o k : Nat) :
    List.Sublist ((l.drop o).take k) l :=
  (List.take_sublist _ _).trans (List.drop_sublist _ _)

/-- The results list of `get_history`, spelled out. -/
lemma get_history_results_def (s : Store) (pid : String)
    (dtFrom dtTo pP sP : Option Int) :
    (get_history s pid dtFrom dtTo pP sP).results
      = ((((historyMatches s pid dtFrom dtTo).mergeSort byTsDesc).drop
          (((max (pP.getD 1) 1 - 1) * min (max (sP.getD 100) 1) 500).toNat)).take
          (min (max (sP.getD 100) 1) 500).toNat).map vitalView := rfl

/--
**C8** (history pagination): `get_history` reports as `total` the number
of the patient's vitals inside the inclusive time range, independent of
pagination; `page` defaults to 1 and is floored at 1, `page_size` defaults
to 100 and is clamped to 1–500; the returned page is always ordered
newest-first (timestamps non-increasing); and when the patient has 250
matching vitals with pairwise-distinct timestamps, pages 1, 2, 3 at
`page_size = 100` hold 100, 100 and 50 items, each strictly descending by
timestamp, with `total = 250` on every page.
-/
theorem C8_history_pagination :
    ∀ (s : Store) (pid : String) (dtFrom dtTo : Option Int)
      (pageP sizeP : Option Int),
      (get_history s pid dtFrom dtTo pageP sizeP).total
          = (historyMatches s pid dtFrom dtTo).length ∧
      (get_history s pid dtFrom dtTo pageP sizeP).page = max (pageP.getD 1) 1 ∧
      (get_history s pid dtFrom dtTo pageP sizeP).page_size
          = min (max (sizeP.getD 100) 1) 500 ∧
      (get_history s pid dtFrom dtTo pageP sizeP).results.Pairwise
          (fun a b => b.timestamp ≤ a.timestamp) ∧
      ((historyMatches s pid dtFrom dtTo).length = 250 →
        ((historyMatches s pid dtFrom dtTo).map (fun v => v.timestamp)).Nodup →
        ((get_history s pid dtFrom dtTo (some 1) (some 100)).results.length = 100
          ∧ (get_history s pid dtFrom dtTo (some 2) (some 100)).results.length = 100
          ∧ (get_history s pid dtFrom dtTo (some 3) (some 100)).results.length = 50)
        ∧ ((get_history s pid dtFrom dtTo (some 1) (some 100)).total = 250
          ∧ (get_history s pid dtFrom dtTo (some 2) (some 100)).total = 250
          ∧ (get_history s pid dtFrom dtTo (some 3) (some 100)).total = 250)
        ∧ ((get_history s pid dtFrom dtTo (some 1) (some 100)).results.Pairwise
            (fun a b => b.timestamp < a.timestamp)
          ∧ (get_history s pid dtFrom dtTo (some 2) (some 100)).results.Pairwise
            (fun a b => b.timestamp < a.timestamp)
          ∧ (get_history s pid dtFrom dtTo (some 3) (some 100)).results.Pairwise
            (fun a b => b.timestamp < a.timestamp))) := by
  intro s pid dtFrom dtTo pageP sizeP
  refine ⟨rfl, rfl, rfl, ?_, ?_⟩
  · rw [get_history_results_def]
    exact List.pairwise_map.mpr
      ((mergeSort_ts_sorted _).sublist (window_sublist _ _ _))
  · intro hlen hnd
    have hstrict := mergeSort_ts_strict _ hnd
    have hMlen : ((historyMatches s pid dtFrom dtTo).mergeSort byTsDesc).length
        = 250 := by
      rw [List.length_mergeSort]
      exact hlen
    refine ⟨⟨?_, ?_, ?_⟩, ⟨hlen, hlen, hlen⟩, ?_, ?_, ?_⟩
    · rw [get_history_results_def]
      simp [hMlen]
    · rw [get_history_results_def]
      simp [hMlen]
    · rw [get_history_results_def]
      simp [hMlen]
    · rw [get_history_results_def]
      exact List.pairwise_map.mpr (hstrict.sublist (window_sublist _ _ _))
    · rw [get_history_results_def]
      exact List.pairwise_map.mpr (hstrict.sublist (window_sublist _ _ _))
    · rw [get_history_results_def]
      exact List.pairwise_map.mpr (hstrict.sublist (window_sublist _ _ _))
/-- A store holding 250 vitals for patient `p1` at distinct timestamps. -/
def bigStore : Store :=
  { vitals := (List.range 250).map
      (fun i => ⟨i, "p1", (i : Int), none, none, none, none, none, "dev1"⟩) }

/-- Witness for C8 on the 250-vital store: page lengths 100/100/50,
total 250, strictly descending page. -/
theorem C8_history_pagination_witness :
    (get_history bigStore "p1" none none (some 1) (some 100)).results.length = 100
    ∧ (get_history bigStore "p1" none none (some 2) (some 100)).results.length = 100
    ∧ (get_history bigStore "p1" none none (some 3) (some 100)).results.length = 50
    ∧ (get_history bigStore "p1" none none (some 3) (some 100)).total = 250
    ∧ (get_history bigStore "p1" none none (some 1) (some 100)).results.Pairwise
        (fun a b => b.timestamp < a.timestamp) := by
  have h1 : patientVitals bigStore "p1" = bigStore.vitals := by
    apply List.filter_eq_self.mpr
    intro v hv
    simp only [bigStore, List.mem_map, List.mem_range] at hv
    obtain ⟨i, hi, rfl⟩ := hv
    simp
  have h2 : historyMatches bigStore "p1" none none = patientVitals bigStore "p1" := by
    apply List.filter_eq_self.mpr
    intro v hv
    rfl
  have hlen : (historyMatches bigStore "p1" none none).length = 250 := by
    rw [h2, h1]
    simp [bigStore]
  have hnd : ((historyMatches bigStore "p1" none none).map
      (fun v => v.timestamp)).Nodup := by
    rw [h2, h1]
    simp only [bigStore, List.map_map]
    refine List.Nodup.map (fun a b hab => ?_) (List.nodup_range 250)
    simpa using hab
  have h := (C8_history_pagination bigStore "p1" none none none none).2.2.2.2
    hlen hnd
  exact ⟨h.1.1, h.1.2.1, h.1.2.2, h.2.1.2.2, h.2.2.1⟩
